import Mathlib

/-!
Verification of the `url-shortener` repository (Go) against its
natural-language specification.

The only program file is `cmd/url-shortener/main.go`.  It loads the
configuration, configures a logger from the environment string, opens the
SQLite storage and performs two demo `SaveURL` calls, exiting the process
with code 1 on any failure.  The HTTP server, handlers, alias generator and
storage implementation described by the specification are not part of the
source tree; where a claim depends on them they are modelled from the
specification's words, marked `Modelled from the spec:` below.

The embedding is a shallow one: `main` becomes a pure function from its
configuration, the storage-open outcome and the initial store contents to
the list of observable actions it performs (log calls, storage calls,
process exit, the crash on a nil-logger log call, and — had they
occurred — route binding and listening).
-/

/-! ## Logger configuration (from `setupLogger` in main.go) -/

/-- Output format of a `slog` handler: `NewTextHandler` or `NewJSONHandler`. -/
inductive LogFormat where
  | text
  | json
  deriving DecidableEq, Repr

/-- Minimum log level passed in `slog.HandlerOptions`. -/
inductive LogLevel where
  | debug
  | info
  deriving DecidableEq, Repr

/-- The observable configuration of a `*slog.Logger` built in `setupLogger`. -/
structure LoggerConfig where
  format : LogFormat
  level : LogLevel
  deriving DecidableEq, Repr

/-- `envLocal` constant from main.go. -/
def envLocal : String := "local"

/-- `envDev` constant from main.go. -/
def envDev : String := "dev"

/-- `envProd` constant from main.go. -/
def envProd : String := "prod"

/-- `setupLogger` from main.go: a `switch` on the environment string with no
default branch; the `log` variable stays `nil` (here `none`) for any other
value. -/
def setupLogger (env : String) : Option LoggerConfig :=
  if env == envLocal then some ⟨LogFormat.text, LogLevel.debug⟩
  else if env == envDev then some ⟨LogFormat.json, LogLevel.debug⟩
  else if env == envProd then some ⟨LogFormat.json, LogLevel.info⟩
  else none

/-! ## Storage model

`main.go` calls `sqlite.NewStorage` and `storage.SaveURL`; the sqlite
implementation itself is not in the source tree. -/

/-- Modelled from the spec: a persisted URL Mapping — `id` integer primary
key assigned by the store on insert, `alias` unique short string, `url` the
original long URL. -/
structure Mapping where
  id : Int
  aliasName : String
  url : String
  deriving DecidableEq, Repr

/-- Modelled from the spec: the URL Store's state — the table of mappings
together with the next primary key to assign. -/
structure Storage where
  rows : List Mapping
  nextId : Int
  deriving DecidableEq, Repr

/-- Whether some mapping with the given alias is already stored. -/
def Storage.hasAlias (s : Storage) (a : String) : Bool :=
  s.rows.any (fun m => m.aliasName == a)

/-- Modelled from the spec: result of the store's insert operation —
the assigned id on success, or a `ConflictError` signal when the alias
already exists.  (`StorageError` for I/O failure has no counterpart in the
pure model.) -/
inductive SaveResult where
  | ok (id : Int)
  | conflict
  deriving DecidableEq, Repr

/-- Modelled from the spec: `Insert(alias, url) -> id | ConflictError`
(`storage.SaveURL(urlToSave, alias)` in Go): inserts a new mapping and
returns the assigned identifier, or signals a conflict when the alias
already exists, leaving the store unchanged. -/
def Storage.saveURL (s : Storage) (urlToSave aliasName : String) : SaveResult × Storage :=
  if s.hasAlias aliasName then (SaveResult.conflict, s)
  else (SaveResult.ok s.nextId,
        ⟨s.rows ++ [⟨s.nextId, aliasName, urlToSave⟩], s.nextId + 1⟩)

/-- Modelled from the spec: `GetURL(alias) -> url | NotFoundError`.  Returns
the URL stored under the alias, `none` when no mapping exists. -/
def Storage.getURL (s : Storage) (aliasName : String) : Option String :=
  (s.rows.find? (fun m => m.aliasName == aliasName)).map (fun m => m.url)

/-! ## The entry point (`main` in main.go) as a trace of actions -/

/-- The configuration fields of `config.MustLoad` that `main` reads. -/
structure Config where
  env : String
  storagePath : String
  deriving DecidableEq, Repr

/-- An observable action of `main`.  Log actions record the logger value
they are invoked on (`none` models a nil `*slog.Logger`); `crash` is the
runtime crash of the process (the nil-pointer dereference inside a log
method invoked on a nil logger), after which nothing further runs.
`bindRoute` and `listen` are the actions an HTTP-server-wiring entry point
would perform; they are in the alphabet so that their absence from `main`'s
trace is a statement about `main`, not about the alphabet. -/
inductive ProcAction where
  | logInfo (lg : Option LoggerConfig) (msg : String)
  | logDebug (lg : Option LoggerConfig) (msg : String)
  | logError (lg : Option LoggerConfig) (msg : String)
  | newStorage (path : String)
  | saveCall (url aliasName : String)
  | exit (code : Nat)
  | crash
  | bindRoute (method path : String)
  | listen (addr : String)
  deriving DecidableEq, Repr

/-- `main` from main.go as the list of actions it performs, parametrised by
the loaded configuration `cfg`, by whether `sqlite.NewStorage` succeeds
(`storageOk`), and by the initial store contents `s0`.  Mirrors the source
line by line: logger setup, two startup log calls, storage creation, a
first `SaveURL("https://google.com", "google")` with `os.Exit(1)` on error,
an `url saved` log, then the identical second `SaveURL` with `os.Exit(1)`
on error.  When `setupLogger` yields `nil` (an environment outside
local/dev/prod), the very first `log.Info` dereferences the nil
`*slog.Logger` and the process crashes there, before `sqlite.NewStorage`
and before any store call. -/
def mainRun (cfg : Config) (storageOk : Bool) (s0 : Storage) : List ProcAction :=
  match setupLogger cfg.env with
  | none =>
    [ProcAction.logInfo none "starting url-shortener", ProcAction.crash]
  | some l =>
    ProcAction.logInfo (some l) "starting url-shortener" ::
    ProcAction.logDebug (some l) "debug messages are enabled" ::
    ProcAction.newStorage cfg.storagePath ::
    if storageOk then
      ProcAction.saveCall "https://google.com" "google" ::
      match s0.saveURL "https://google.com" "google" with
      | (SaveResult.conflict, _) =>
          [ProcAction.logError (some l) "failed to save url", ProcAction.exit 1]
      | (SaveResult.ok _, s1) =>
          ProcAction.logInfo (some l) "url saved" ::
          ProcAction.saveCall "https://google.com" "google" ::
          match s1.saveURL "https://google.com" "google" with
          | (SaveResult.conflict, _) =>
              [ProcAction.logError (some l) "failed to save url", ProcAction.exit 1]
          | (SaveResult.ok _, _) => []
    else
      [ProcAction.logError (some l) "failed to create storage", ProcAction.exit 1]

/-- Whether an action is HTTP-server wiring (route binding or listening). -/
def ProcAction.isRouting : ProcAction → Bool
  | ProcAction.bindRoute _ _ => true
  | ProcAction.listen _ => true
  | _ => false

/-- The store insertions of a trace, as (url, alias) pairs in order. -/
def saveCalls (tr : List ProcAction) : List (String × String) :=
  tr.filterMap (fun a => match a with
    | ProcAction.saveCall u al => some (u, al)
    | _ => none)

/-! ## Redirect Handler (modelled from the spec; not in the source tree) -/

/-- Modelled from the spec: the Redirect Handler's response — an HTTP 302
redirect carrying the `Location` header, or a 404 not-found result.
(`StorageError` → 500 has no counterpart in the pure store model.) -/
inductive RedirectResponse where
  | found (location : String)
  | notFound
  deriving DecidableEq, Repr

/-- The HTTP status code of a redirect response. -/
def RedirectResponse.code : RedirectResponse → Nat
  | RedirectResponse.found _ => 302
  | RedirectResponse.notFound => 404

/-- Modelled from the spec: the Redirect Handler — look the alias up via the
store's `GetURL`; on success respond with an HTTP 302 redirect whose
Location header is the stored URL, on `NotFoundError` respond not-found. -/
def redirectHandler (s : Storage) (aliasName : String) : RedirectResponse :=
  match s.getURL aliasName with
  | some u => RedirectResponse.found u
  | none => RedirectResponse.notFound

/-! ## Save-URL Handler and Basic-Auth middleware (modelled from the spec) -/

/-- HTTP Basic credentials attached to a request. -/
structure Credentials where
  user : String
  password : String
  deriving DecidableEq, Repr

/-- Modelled from the spec: the Save-URL request payload — a required URL
field and an optional alias field — together with the request's Basic-Auth
credentials (`none` when absent). -/
structure SaveRequest where
  creds : Option Credentials
  url : Option String
  aliasField : Option String
  deriving DecidableEq, Repr

/-- Modelled from the spec: the Save-URL responses — `200 OK` with the alias
used, `400` validation error naming the failing field, `401` unauthorized
from the Basic-Auth middleware, `409` alias conflict. -/
inductive SaveResponse where
  | ok (aliasName : String)
  | invalidRequest (field : String)
  | unauthorized
  | conflict
  deriving DecidableEq, Repr

/-- The HTTP status code of a Save-URL response. -/
def SaveResponse.code : SaveResponse → Nat
  | SaveResponse.ok _ => 200
  | SaveResponse.invalidRequest _ => 400
  | SaveResponse.unauthorized => 401
  | SaveResponse.conflict => 409

/-- Whether a character list contains the scheme separator `://` followed by
at least one character. -/
def hasSchemeSep : List Char → Bool
  | [] => false
  | ':' :: '/' :: '/' :: _ :: _ => true
  | _ :: rest => hasSchemeSep rest

/-- Modelled from the spec: the payload validator's URL-syntax check — the
URL must be non-empty and syntactically a valid URL, approximated as
containing a scheme separator `://` with something after it (so `""` and
`"not-a-url"` are rejected and `"https://google.com"` is accepted). -/
def isValidURL (u : String) : Bool :=
  hasSchemeSep u.toList

/-- Modelled from the spec: the Save-URL Handler behind the middleware.
`genAlias` is the alias obtained from the Alias Generator when the request
carries none.  Returns the response, the store after the call, and the
number of store calls made.  Steps: validate the URL field (absent, empty
or syntactically invalid → 400 with zero store calls), choose the alias,
call the store's insert (conflict → 409), respond `OK` with the alias
used. -/
def saveURLHandler (genAlias : String) (s : Storage) (req : SaveRequest) :
    SaveResponse × Storage × Nat :=
  match req.url with
  | none => (SaveResponse.invalidRequest "url", s, 0)
  | some u =>
    if isValidURL u then
      let used := req.aliasField.getD genAlias
      match s.saveURL u used with
      | (SaveResult.conflict, s1) => (SaveResponse.conflict, s1, 1)
      | (SaveResult.ok _, s1) => (SaveResponse.ok used, s1, 1)
    else (SaveResponse.invalidRequest "url", s, 0)

/-- Modelled from the spec: the Basic-Auth middleware on `POST /url` — the
request's credentials are checked against the configured username and
password; on mismatch or absence the middleware responds unauthorized
(HTTP 401) before the handler, hence before any storage access. -/
def savePipeline (cfgUser cfgPassword : String) (genAlias : String)
    (s : Storage) (req : SaveRequest) : SaveResponse × Storage × Nat :=
  if req.creds == some ⟨cfgUser, cfgPassword⟩ then
    saveURLHandler genAlias s req
  else (SaveResponse.unauthorized, s, 0)

/-! ## Alias Generator (modelled from the spec) -/

/-- Modelled from the spec: the alphanumeric alphabet the Alias Generator
draws characters from. -/
def alphabet : List Char :=
  "abcdefghijklmnopqrstuvwxyzABCDEFGHIJKLMNOPQRSTUVWXYZ0123456789".toList

/-- The alphabet character selected by a raw random number. -/
def alphaAt (n : Nat) : Char :=
  alphabet.getD (n % alphabet.length) 'a'

/-- Modelled from the spec: the Alias Generator — produces a fixed-length
string drawn from the alphanumeric alphabet, the source of randomness
abstracted as a function `rnd` from position to raw random number. -/
def newRandomString (size : Nat) (rnd : Nat → Nat) : String :=
  String.mk ((List.range size).map (fun i => alphaAt (rnd i)))

/-! ## Helper lemmas -/

/-- A fresh alias makes the insert succeed with the next id, appending the
new mapping. -/
theorem saveURL_of_fresh (s : Storage) (u a : String) (h : s.hasAlias a = false) :
    s.saveURL u a =
      (SaveResult.ok s.nextId, ⟨s.rows ++ [⟨s.nextId, a, u⟩], s.nextId + 1⟩) := by
  simp [Storage.saveURL, h]

/-- An alias already present makes the insert signal a conflict and leaves
the store unchanged. -/
theorem saveURL_of_taken (s : Storage) (u a : String) (h : s.hasAlias a = true) :
    s.saveURL u a = (SaveResult.conflict, s) := by
  simp [Storage.saveURL, h]

/-- A successful insert can only happen on a fresh alias. -/
theorem hasAlias_false_of_saveURL_ok (s : Storage) (u a : String) (i : Int)
    (h : (s.saveURL u a).1 = SaveResult.ok i) : s.hasAlias a = false := by
  cases hA : s.hasAlias a with
  | false => rfl
  | true => rw [saveURL_of_taken s u a hA] at h; exact absurd h (by simp)

/-- After appending a mapping for alias `a`, the store has alias `a`. -/
theorem hasAlias_append (rows : List Mapping) (i j : Int) (u a : String) :
    Storage.hasAlias ⟨rows ++ [⟨i, a, u⟩], j⟩ a = true := by
  simp [Storage.hasAlias]

/-- Looking an alias up after appending its mapping to rows without it finds
exactly the appended mapping. -/
theorem find?_rows_append (rows : List Mapping) (i : Int) (u a : String)
    (h : rows.any (fun m => m.aliasName == a) = false) :
    (rows ++ [(⟨i, a, u⟩ : Mapping)]).find? (fun m => m.aliasName == a) = some ⟨i, a, u⟩ := by
  rw [List.find?_append]
  have h1 : rows.find? (fun m => m.aliasName == a) = none := by
    rw [List.find?_eq_none]
    intro m hm
    have := (List.any_eq_false).1 h m hm
    simpa using this
  simp [h1]

/-- Evaluation of `main`'s trace when the environment is unrecognized: the
logger is `nil` and the process crashes on the first `log.Info`, before any
storage action. -/
theorem mainRun_nil_logger (cfg : Config) (storageOk : Bool) (s0 : Storage)
    (hl : setupLogger cfg.env = none) :
    mainRun cfg storageOk s0 =
      [ProcAction.logInfo none "starting url-shortener", ProcAction.crash] := by
  simp [mainRun, hl]

/-- Evaluation of `main`'s trace when the logger is non-nil and storage
creation fails. -/
theorem mainRun_storage_fail (cfg : Config) (s0 : Storage) (l : LoggerConfig)
    (hl : setupLogger cfg.env = some l) :
    mainRun cfg false s0 =
      [ProcAction.logInfo (some l) "starting url-shortener",
       ProcAction.logDebug (some l) "debug messages are enabled",
       ProcAction.newStorage cfg.storagePath,
       ProcAction.logError (some l) "failed to create storage",
       ProcAction.exit 1] := by
  simp [mainRun, hl]

/-- Evaluation of `main`'s trace when the logger is non-nil and the demo
alias is already stored: the first insert conflicts and the process
exits. -/
theorem mainRun_taken (cfg : Config) (s0 : Storage) (l : LoggerConfig)
    (hl : setupLogger cfg.env = some l) (hA : s0.hasAlias "google" = true) :
    mainRun cfg true s0 =
      [ProcAction.logInfo (some l) "starting url-shortener",
       ProcAction.logDebug (some l) "debug messages are enabled",
       ProcAction.newStorage cfg.storagePath,
       ProcAction.saveCall "https://google.com" "google",
       ProcAction.logError (some l) "failed to save url",
       ProcAction.exit 1] := by
  simp [mainRun, hl, saveURL_of_taken s0 "https://google.com" "google" hA]

/-- Evaluation of `main`'s trace when the logger is non-nil and the demo
alias is fresh: the first insert succeeds, the identical second insert
conflicts and the process exits. -/
theorem mainRun_fresh (cfg : Config) (s0 : Storage) (l : LoggerConfig)
    (hl : setupLogger cfg.env = some l) (hA : s0.hasAlias "google" = false) :
    mainRun cfg true s0 =
      [ProcAction.logInfo (some l) "starting url-shortener",
       ProcAction.logDebug (some l) "debug messages are enabled",
       ProcAction.newStorage cfg.storagePath,
       ProcAction.saveCall "https://google.com" "google",
       ProcAction.logInfo (some l) "url saved",
       ProcAction.saveCall "https://google.com" "google",
       ProcAction.logError (some l) "failed to save url",
       ProcAction.exit 1] := by
  have h1 := saveURL_of_fresh s0 "https://google.com" "google" hA
  have h2 := saveURL_of_taken
    ⟨s0.rows ++ [⟨s0.nextId, "google", "https://google.com"⟩], s0.nextId + 1⟩
    "https://google.com" "google" (hasAlias_append _ _ _ _ _)
  simp [mainRun, hl, h1, h2]

/-- C1 counterexample: a concrete, fully successful environment (storage
opens, demo alias fresh) still runs into a storage insert failure — the
second duplicate insert's conflict — and the trace ends with the process
terminating via `os.Exit(1)`, contradicting "the process keeps running and
the failure is scoped to the single operation". -/
theorem mainRun_demo_exit_counterexample :
    mainRun ⟨"local", "./storage/storage.db"⟩ true ⟨[], 1⟩ =
      [ProcAction.logInfo (some ⟨LogFormat.text, LogLevel.debug⟩) "starting url-shortener",
       ProcAction.logDebug (some ⟨LogFormat.text, LogLevel.debug⟩) "debug messages are enabled",
       ProcAction.newStorage "./storage/storage.db",
       ProcAction.saveCall "https://google.com" "google",
       ProcAction.logInfo (some ⟨LogFormat.text, LogLevel.debug⟩) "url saved",
       ProcAction.saveCall "https://google.com" "google",
       ProcAction.logError (some ⟨LogFormat.text, LogLevel.debug⟩) "failed to save url",
       ProcAction.exit 1] := by decide

/-- C1 (amended): a failure in `main`'s startup sequence is fatal rather
than scoped to the operation — whenever the configured environment is
recognized (the logger is non-nil), every run of `main` performs
`os.Exit(1)`, whatever the storage-open outcome and the initial store
contents: either storage creation fails, or the first demo insert
conflicts, or the first succeeds and then the identical second insert
conflicts.  (With an unrecognized environment the process dies even
earlier, crashing on the nil-logger `Info` call.) -/
theorem mainRun_known_env_exits (cfg : Config) (storageOk : Bool) (s0 : Storage)
    (l : LoggerConfig) (hl : setupLogger cfg.env = some l) :
    ProcAction.exit 1 ∈ mainRun cfg storageOk s0 := by
  cases storageOk with
  | false => rw [mainRun_storage_fail cfg s0 l hl]; simp
  | true =>
    cases hA : s0.hasAlias "google" with
    | true => rw [mainRun_taken cfg s0 l hl hA]; simp
    | false => rw [mainRun_fresh cfg s0 l hl hA]; simp

/-- C1 witness: the amended theorem at a concrete input with the recognized
environment `"local"`. -/
theorem mainRun_known_env_exits_witness :
    setupLogger "local" = some ⟨LogFormat.text, LogLevel.debug⟩ ∧
    ProcAction.exit 1 ∈ mainRun ⟨"local", "./storage/storage.db"⟩ true ⟨[], 1⟩ :=
  ⟨rfl, mainRun_known_env_exits ⟨"local", "./storage/storage.db"⟩ true ⟨[], 1⟩
    ⟨LogFormat.text, LogLevel.debug⟩ rfl⟩

/-- C2: the entry point binds no HTTP route and starts no listener — every
action of every run of `main` is a log call, storage creation, a store
insert or a process exit; none is route binding or listening. -/
theorem mainRun_performs_no_routing (cfg : Config) (storageOk : Bool) (s0 : Storage) :
    (mainRun cfg storageOk s0).all (fun a => !a.isRouting) = true := by
  cases hlg : setupLogger cfg.env with
  | none => rw [mainRun_nil_logger cfg storageOk s0 hlg]; rfl
  | some l =>
    cases storageOk with
    | false => rw [mainRun_storage_fail cfg s0 l hlg]; rfl
    | true =>
      cases hA : s0.hasAlias "google" with
      | true => rw [mainRun_taken cfg s0 l hlg hA]; rfl
      | false => rw [mainRun_fresh cfg s0 l hlg hA]; rfl

/-- C3: when the configured environment is recognized (so the nil-logger
crash does not intervene), storage creation succeeds and the demo alias is
not already stored, `main`'s startup sequence performs exactly two store
insertions, both with the identical pair
`("https://google.com", "google")`. -/
theorem mainRun_known_env_two_save_calls (cfg : Config) (s0 : Storage)
    (l : LoggerConfig) (hl : setupLogger cfg.env = some l)
    (hA : s0.hasAlias "google" = false) :
    saveCalls (mainRun cfg true s0) =
      [("https://google.com", "google"), ("https://google.com", "google")] := by
  rw [mainRun_fresh cfg s0 l hl hA]; rfl

/-- C3 witness: the theorem at a concrete configuration with environment
`"local"` and an empty store. -/
theorem mainRun_known_env_two_save_calls_witness :
    setupLogger "local" = some ⟨LogFormat.text, LogLevel.debug⟩ ∧
    Storage.hasAlias ⟨[], 1⟩ "google" = false ∧
    saveCalls (mainRun ⟨"local", "./storage/storage.db"⟩ true ⟨[], 1⟩) =
      [("https://google.com", "google"), ("https://google.com", "google")] :=
  ⟨rfl, by decide,
   mainRun_known_env_two_save_calls ⟨"local", "./storage/storage.db"⟩ ⟨[], 1⟩
     ⟨LogFormat.text, LogLevel.debug⟩ rfl (by decide)⟩

/-- C5: `setupLogger` maps the enumerated environment value to its logging
configuration — `"local"` to a debug-level text logger, `"dev"` to a
debug-level JSON logger, `"prod"` to an info-level JSON logger. -/
theorem setupLogger_env_mapping :
    setupLogger "local" = some ⟨LogFormat.text, LogLevel.debug⟩ ∧
    setupLogger "dev" = some ⟨LogFormat.json, LogLevel.debug⟩ ∧
    setupLogger "prod" = some ⟨LogFormat.json, LogLevel.info⟩ := by
  refine ⟨rfl, rfl, rfl⟩

/-- C6: for every environment string other than `"local"`, `"dev"` and
`"prod"`, `setupLogger` returns `none` (the `nil` logger: the switch has no
default branch), and the very first thing `main` then does is invoke `Info`
on that `nil` logger. -/
theorem setupLogger_unknown_env_nil (cfg : Config) (storageOk : Bool) (s0 : Storage)
    (h1 : cfg.env ≠ envLocal) (h2 : cfg.env ≠ envDev) (h3 : cfg.env ≠ envProd) :
    setupLogger cfg.env = none ∧
    (mainRun cfg storageOk s0).head? =
      some (ProcAction.logInfo none "starting url-shortener") := by
  have hnone : setupLogger cfg.env = none := by
    unfold setupLogger
    rw [if_neg (by simpa using h1), if_neg (by simpa using h2), if_neg (by simpa using h3)]
  exact ⟨hnone, by rw [mainRun_nil_logger cfg storageOk s0 hnone]; rfl⟩

/-- C6 witness: the theorem at the concrete unknown environment
`"staging"`. -/
theorem setupLogger_unknown_env_nil_witness :
    setupLogger "staging" = none ∧
    (mainRun ⟨"staging", "./storage/storage.db"⟩ true ⟨[], 1⟩).head? =
      some (ProcAction.logInfo none "starting url-shortener") :=
  setupLogger_unknown_env_nil ⟨"staging", "./storage/storage.db"⟩ true ⟨[], 1⟩
    (by decide) (by decide) (by decide)

/-- C4: for every alias not yet stored, inserting a mapping with that alias
succeeds the first time (returning the next id), signals a conflict the
second time leaving the store unchanged, and the originally stored mapping
— its id and URL — is still what the first insert stored after the failed
second insert. -/
theorem saveURL_twice_conflict (s : Storage) (u u2 a : String)
    (hA : s.hasAlias a = false) :
    (s.saveURL u a).1 = SaveResult.ok s.nextId ∧
    ((s.saveURL u a).2).saveURL u2 a = (SaveResult.conflict, (s.saveURL u a).2) ∧
    (((s.saveURL u a).2).saveURL u2 a).2.rows.find? (fun m => m.aliasName == a) =
      some ⟨s.nextId, a, u⟩ := by
  have h1 := saveURL_of_fresh s u a hA
  have h2 := saveURL_of_taken
    ⟨s.rows ++ [⟨s.nextId, a, u⟩], s.nextId + 1⟩ u2 a (hasAlias_append _ _ _ _ _)
  rw [h1]
  exact ⟨rfl, h2, by rw [h2]; exact find?_rows_append s.rows s.nextId u a hA⟩

/-- C4 witness: the theorem at an empty store with alias `"ex1"`. -/
theorem saveURL_twice_conflict_witness :
    Storage.hasAlias ⟨[], 1⟩ "ex1" = false ∧
    ((Storage.saveURL ⟨[], 1⟩ "https://example.com" "ex1").1 = SaveResult.ok 1 ∧
     ((Storage.saveURL ⟨[], 1⟩ "https://example.com" "ex1").2).saveURL "https://other.com" "ex1" =
       (SaveResult.conflict, (Storage.saveURL ⟨[], 1⟩ "https://example.com" "ex1").2) ∧
     (((Storage.saveURL ⟨[], 1⟩ "https://example.com" "ex1").2).saveURL "https://other.com" "ex1").2.rows.find?
         (fun m => m.aliasName == "ex1") = some ⟨1, "ex1", "https://example.com"⟩) :=
  ⟨by decide, saveURL_twice_conflict ⟨[], 1⟩ "https://example.com" "https://other.com" "ex1" (by decide)⟩

/-- C7: round-trip — after a successful insert of URL `u` under alias `a`,
the Redirect Handler on `a` responds with an HTTP 302 redirect whose
Location is exactly the stored `u`. -/
theorem redirect_after_save (s : Storage) (u a : String) (i : Int)
    (h : (s.saveURL u a).1 = SaveResult.ok i) :
    redirectHandler (s.saveURL u a).2 a = RedirectResponse.found u ∧
    (redirectHandler (s.saveURL u a).2 a).code = 302 := by
  have hA := hasAlias_false_of_saveURL_ok s u a i h
  rw [saveURL_of_fresh s u a hA]
  have hfind := find?_rows_append s.rows s.nextId u a hA
  constructor
  · simp [redirectHandler, Storage.getURL, hfind]
  · simp [redirectHandler, Storage.getURL, hfind, RedirectResponse.code]

/-- C7 witness: the theorem at an empty store, URL `"https://example.com"`
and alias `"ex1"`. -/
theorem redirect_after_save_witness :
    (Storage.saveURL ⟨[], 1⟩ "https://example.com" "ex1").1 = SaveResult.ok 1 ∧
    (redirectHandler (Storage.saveURL ⟨[], 1⟩ "https://example.com" "ex1").2 "ex1" =
       RedirectResponse.found "https://example.com" ∧
     (redirectHandler (Storage.saveURL ⟨[], 1⟩ "https://example.com" "ex1").2 "ex1").code = 302) :=
  ⟨by decide, redirect_after_save ⟨[], 1⟩ "https://example.com" "ex1" 1 (by decide)⟩

/-- C8: a Save-URL request without valid Basic-Auth credentials is answered
unauthorized (HTTP 401) by the middleware, with the store untouched and the
store call count zero. -/
theorem savePipeline_unauthorized (cfgUser cfgPassword genAlias : String)
    (s : Storage) (req : SaveRequest)
    (h : req.creds ≠ some ⟨cfgUser, cfgPassword⟩) :
    savePipeline cfgUser cfgPassword genAlias s req =
      (SaveResponse.unauthorized, s, 0) := by
  unfold savePipeline
  rw [if_neg (by simpa using h)]

/-- C8 witness: the theorem at a request carrying no credentials. -/
theorem savePipeline_unauthorized_witness :
    SaveRequest.creds ⟨none, some "https://example.com", none⟩ ≠
      some ⟨"admin", "123456"⟩ ∧
    savePipeline "admin" "123456" "abc123" ⟨[], 1⟩
        ⟨none, some "https://example.com", none⟩ =
      (SaveResponse.unauthorized, ⟨[], 1⟩, 0) :=
  ⟨by decide,
   savePipeline_unauthorized "admin" "123456" "abc123" ⟨[], 1⟩
     ⟨none, some "https://example.com", none⟩ (by decide)⟩

/-- C9: a Save-URL request whose URL field is absent, or present but not
syntactically a valid URL (the empty string included), is answered with a
validation error (HTTP 400) naming the `url` field, with the store
untouched and the store call count zero. -/
theorem saveURLHandler_invalid_url (genAlias : String) (s : Storage)
    (req : SaveRequest) (h : ∀ u, req.url = some u → isValidURL u = false) :
    saveURLHandler genAlias s req = (SaveResponse.invalidRequest "url", s, 0) := by
  rcases hq : req.url with _ | u
  · simp [saveURLHandler, hq]
  · have hv := h u hq
    simp [saveURLHandler, hq, hv]

/-- C9 witness: the theorem at the concrete invalid URL `"not-a-url"`. -/
theorem saveURLHandler_invalid_url_witness :
    (∀ u, SaveRequest.url ⟨some ⟨"admin", "123456"⟩, some "not-a-url", none⟩ = some u →
      isValidURL u = false) ∧
    saveURLHandler "abc123" ⟨[], 1⟩ ⟨some ⟨"admin", "123456"⟩, some "not-a-url", none⟩ =
      (SaveResponse.invalidRequest "url", ⟨[], 1⟩, 0) :=
  have hinv : ∀ u, SaveRequest.url ⟨some ⟨"admin", "123456"⟩, some "not-a-url", none⟩ = some u →
      isValidURL u = false := by
    intro u hu
    obtain rfl := Option.some.inj hu
    decide
  ⟨hinv, saveURLHandler_invalid_url "abc123" ⟨[], 1⟩
    ⟨some ⟨"admin", "123456"⟩, some "not-a-url", none⟩ hinv⟩

/-- The generated string has exactly the requested number of characters. -/
theorem newRandomString_length (size : Nat) (rnd : Nat → Nat) :
    (newRandomString size rnd).length = size := by
  simp [newRandomString]

/-- Every character the generator selects lies in the alphabet. -/
theorem alphaAt_mem (n : Nat) : alphaAt n ∈ alphabet := by
  have hb : ∀ k, k < 62 → alphabet.getD k 'a' ∈ alphabet := by decide
  have hlen : alphabet.length = 62 := by decide
  unfold alphaAt
  rw [hlen]
  exact hb _ (Nat.mod_lt _ (by norm_num))

/-- Every character of a generated string lies in the alphabet. -/
theorem newRandomString_mem (size : Nat) (rnd : Nat → Nat) (c : Char)
    (hc : c ∈ (newRandomString size rnd).toList) : c ∈ alphabet := by
  simp only [newRandomString, String.toList] at hc
  obtain ⟨i, _, rfl⟩ := List.mem_map.1 hc
  exact alphaAt_mem (rnd i)

/-- C10: every output of the Alias Generator at size 6 is a string of
exactly 6 characters drawn from the alphanumeric alphabet, whatever the
random source; and a Save-URL success response for a request with an absent
alias carries that generated alias, so its alias has length 6. -/
theorem newRandomString_six (rnd : Nat → Nat) :
    (newRandomString 6 rnd).length = 6 ∧
    (∀ c ∈ (newRandomString 6 rnd).toList, c ∈ alphabet) ∧
    (∀ (s : Storage) (req : SaveRequest) (a : String),
      req.aliasField = none →
      (saveURLHandler (newRandomString 6 rnd) s req).1 = SaveResponse.ok a →
      a.length = 6) := by
  refine ⟨newRandomString_length 6 rnd,
    fun c hc => newRandomString_mem 6 rnd c hc, ?_⟩
  intro s req a halias hresp
  rcases hq : req.url with _ | u
  · simp [saveURLHandler, hq] at hresp
  · cases hv : isValidURL u with
    | false => simp [saveURLHandler, hq, hv] at hresp
    | true =>
      simp only [saveURLHandler, hq, hv, halias, Option.getD_none, if_true] at hresp
      rcases hsv : s.saveURL u (newRandomString 6 rnd) with ⟨r, s1⟩
      cases r with
      | conflict => rw [hsv] at hresp; simp at hresp
      | ok i =>
        rw [hsv] at hresp
        simp only [] at hresp
        have ha : newRandomString 6 rnd = a := by
          have := hresp
          simpa using this
        rw [← ha]
        exact newRandomString_length 6 rnd

/-- C10 witness: the handler clause of the theorem at the identity random
source, an empty store and a concrete valid request without an alias. -/
theorem newRandomString_six_witness :
    (newRandomString 6 (fun i => i)).length = 6 :=
  (newRandomString_six (fun i => i)).2.2 ⟨[], 1⟩
    ⟨none, some "https://example.com", none⟩ (newRandomString 6 (fun i => i))
    rfl (by decide)
